import Mathlib

/-!
Verification of the Trialix biomarker enrichment core against its
specification.  The definitions below are a shallow embedding of
`src/trialix/core/criteria_generator.py`, `cutoff_optimizer.py` and
`biomarker_analysis.py`.

Modelling conventions:
* machine floats are modelled by exact rationals (`ℚ`);
* a missing (pandas `NaN`) cell is modelled by absence of the value
  (`Option ℚ` with `none`, or a key absent from a row's cell list);
* `float('inf')` (the number-needed-to-screen of an empty eligible set)
  is modelled by `none` in an `Option ℚ`;
* the iterative numeric fitting routine (scikit-learn
  `LogisticRegression.fit` producing per-patient fitted probabilities or
  per-biomarker statistics) is passed in as an explicit oracle argument
  `fit`; every verified property concerns the surrounding deterministic
  pipeline and is proved for an arbitrary oracle;
* a pandas `Series.mean()` over an empty selection (a `NaN` in Python)
  only arises when a dataset has no patient with a non-missing outcome;
  `qmean` returns `0` there and the theorems that depend on a mean
  restrict to a non-empty selection.
-/

namespace Trialix

/-- One patient row: the optional binary outcome (the `_outcome_binary`
column; `none` models a missing outcome) and the biomarker cells present
in the row.  A column name absent from `vals` models a `NaN` cell. -/
structure Row where
  outcome : Option ℚ
  vals : List (String × ℚ)
deriving DecidableEq

/-- Value of column `b` in row `r` (`none` = missing). -/
def Row.get (r : Row) (b : String) : Option ℚ :=
  (r.vals.find? (fun p => p.1 == b)).map (fun p => p.2)

/-- A pandas `DataFrame`: its column names and its rows. -/
structure Dataset where
  cols : List String
  rows : List Row
deriving DecidableEq

/-- Mean of a list of rationals, `sum / length`
(pandas `Series.mean()`; the empty case is discussed in the header). -/
def qmean (xs : List ℚ) : ℚ := xs.sum / xs.length

/-! ### Criteria generator (`criteria_generator.py`) -/

/-- One row of the cutoff table handed to `generate_criteria`
(`optimize_multiple_cutoffs` output; only the `biomarker` and `cutoff`
columns are read by the criteria generator). -/
structure CutoffRow where
  biomarker : String
  cutoff : ℚ
deriving DecidableEq

/-- The `EnrichmentCriteria` dataclass.  `criteria` keeps the
(biomarker, cutoff) pair behind each rendered rule string
(`_format_criterion` renders one string per pair; the rendering itself
is display glue and not modelled).  `number_needed_to_screen = none`
encodes `float('inf')`. -/
structure EnrichmentCriteria where
  criteria : List (String × ℚ)
  biomarkers_used : List String
  cutoffs : List (String × ℚ)
  response_rate_unenriched : ℚ
  response_rate_enriched : ℚ
  eligible_fraction : ℚ
  enrichment_factor : ℚ
  number_needed_to_screen : Option ℚ
  n_eligible : ℕ
  n_total : ℕ
deriving DecidableEq

/-- The per-criterion test `self.data[biomarker] >= cutoff` on one row:
a missing cell compares as `False` (pandas `NaN >= c` is `False`). -/
def valGE (r : Row) (b : String) (c : ℚ) : Bool :=
  match r.get b with
  | some v => decide (c ≤ v)
  | none => false

/-- One row of the combined eligibility mask of
`_calculate_combined_impact`: the AND over the cutoff dictionary of
`data[biomarker] >= cutoff`, where a biomarker that is not a dataset
column is skipped (`if biomarker in self.data.columns`). -/
def rowEligible (cols : List String) (cuts : List (String × ℚ)) (r : Row) : Bool :=
  cuts.all (fun p => if cols.contains p.1 then valGE r p.1 p.2 else true)

/-- The impact-metric record computed by `_calculate_combined_impact`. -/
structure Impact where
  response_rate_unenriched : ℚ
  response_rate_enriched : ℚ
  eligible_fraction : ℚ
  enrichment_factor : ℚ
  number_needed_to_screen : Option ℚ
  n_eligible : ℕ
  n_total : ℕ
deriving DecidableEq

/-- `CriteriaGenerator._calculate_combined_impact`: patients with a
missing outcome are dropped from every count and rate; `n_eligible`
additionally requires every criterion of `cuts` to hold. -/
def calcImpact (data : Dataset) (cuts : List (String × ℚ)) : Impact :=
  let valid := data.rows.filter (fun r => r.outcome.isSome)
  let elig := valid.filter (rowEligible data.cols cuts)
  let n_total := valid.length
  let n_eligible := elig.length
  let eligible_fraction : ℚ := if 0 < n_total then (n_eligible : ℚ) / (n_total : ℚ) else 0
  let rru := qmean (valid.map (fun r => r.outcome.getD 0))
  let rre := if 0 < n_eligible then qmean (elig.map (fun r => r.outcome.getD 0)) else 0
  let factor := if 0 < rru then rre / rru else 1
  let nns : Option ℚ := if 0 < eligible_fraction then some (1 / eligible_fraction) else none
  ⟨rru, rre, eligible_fraction, factor, nns, n_eligible, n_total⟩

/-- Python `dict` assignment `cutoffs_dict[biomarker] = cutoff` on an
association list: overwrite in place if the key exists (keeping the
original key position), else append. -/
def dictInsert (dct : List (String × ℚ)) (k : String) (v : ℚ) : List (String × ℚ) :=
  if dct.any (fun p => p.1 == k) then
    dct.map (fun p => if p.1 == k then (k, v) else p)
  else
    dct ++ [(k, v)]

/-- The three accumulators built by the selection loop of
`generate_criteria`: `criteria` (the rule list), `biomarkers_used`,
and the `cutoffs_dict` dictionary. -/
structure Selection where
  criteria : List (String × ℚ)
  biomarkers_used : List String
  cutoffs_dict : List (String × ℚ)
deriving DecidableEq

/-- One iteration of the `for _, row in top_biomarkers.iterrows()` loop:
look up the biomarker in the cutoff table (`cutoff_results[...] ==
biomarker`, first matching row) and, when found, extend the three
accumulators.  The column access `cutoff_results["biomarker"]` is total
here because a non-empty cutoff table always carries the `biomarker`
column; the `KeyError` of the column-less empty table (the
`pd.DataFrame([])` the batch optimizer returns when every biomarker
fails) fires on the first loop iteration, independent of which
biomarker is processed, and is therefore raised by `generateCriteria`
before this fold runs. -/
def selectStep (cutoff_results : List CutoffRow) (acc : Selection) (biomarker : String) :
    Selection :=
  match cutoff_results.find? (fun row => row.biomarker == biomarker) with
  | some row =>
      ⟨acc.criteria ++ [(biomarker, row.cutoff)],
       acc.biomarkers_used ++ [biomarker],
       dictInsert acc.cutoffs_dict biomarker row.cutoff⟩
  | none => acc

/-- The whole selection loop of `generate_criteria`, run over
`biomarker_results.head(max_criteria)`. -/
def selectTop (biomarker_results : List String) (cutoff_results : List CutoffRow)
    (max_criteria : ℕ) : Selection :=
  (biomarker_results.take max_criteria).foldl (selectStep cutoff_results) ⟨[], [], []⟩

/-- Packing a selection and an impact record into the returned
`EnrichmentCriteria` (the final constructor call of
`generate_criteria`). -/
def mkEC (sel : Selection) (impact : Impact) : EnrichmentCriteria :=
  ⟨sel.criteria, sel.biomarkers_used, sel.cutoffs_dict,
   impact.response_rate_unenriched, impact.response_rate_enriched,
   impact.eligible_fraction, impact.enrichment_factor,
   impact.number_needed_to_screen, impact.n_eligible, impact.n_total⟩

/-- The exceptions `generate_criteria` can raise: the
`ValueError("No significant biomarkers found")` domain error on an
empty ranked table, and the pandas `KeyError` raised by a column access
on a DataFrame lacking that column. -/
inductive CriteriaError where
  | noSignificantBiomarkers
  | keyError (column : String)
deriving DecidableEq

/-- `CriteriaGenerator.generate_criteria`.  The ranked biomarker table
is modelled by its `biomarker` column (the only column the function
reads), already in ranked order.  An empty `List CutoffRow` models the
column-less empty DataFrame that `optimize_multiple_cutoffs` returns
when every biomarker fails (`pd.DataFrame([])` from an empty results
list has no `biomarker` column); on it the selection loop's column
access `cutoff_results["biomarker"]` raises `KeyError` at its first
iteration, which exists exactly when `head(max_criteria)` of the
non-empty ranked table is non-empty.  A non-empty cutoff table always
carries the column, so past these two guards nothing can raise. -/
def generateCriteria (data : Dataset) (biomarker_results : List String)
    (cutoff_results : List CutoffRow) (max_criteria : ℕ)
    (min_eligible_fraction : ℚ) : Except CriteriaError EnrichmentCriteria :=
  if biomarker_results = [] then .error .noSignificantBiomarkers
  else if cutoff_results = [] ∧ biomarker_results.take max_criteria ≠ [] then
    .error (.keyError "biomarker")
  else
    let sel := selectTop biomarker_results cutoff_results max_criteria
    let impact := calcImpact data sel.cutoffs_dict
    if impact.eligible_fraction < min_eligible_fraction ∧ 1 < sel.cutoffs_dict.length then
      let hd := sel.cutoffs_dict.headI
      .ok (mkEC ⟨sel.criteria.take 1, sel.biomarkers_used.take 1, [hd]⟩
                (calcImpact data [hd]))
    else .ok (mkEC sel impact)

/-- First cutoff-table entry for biomarker `b`
(`cutoff_results[cutoff_results["biomarker"] == biomarker].iloc[0]["cutoff"]`). -/
def cutOf (cutoff_results : List CutoffRow) (b : String) : Option ℚ :=
  (cutoff_results.find? (fun row => row.biomarker == b)).map (fun row => row.cutoff)

/-- The biomarkers the generator selects before any backoff:
the first `max_criteria` ranked entries, restricted to those with a
matching cutoff-table entry, in ranked order. -/
def selectedSpec (biomarker_results : List String) (cutoff_results : List CutoffRow)
    (max_criteria : ℕ) : List String :=
  (biomarker_results.take max_criteria).filter (fun b => (cutOf cutoff_results b).isSome)

/-- C1 (amended): `generate_criteria` raises its domain error
(`ValueError("No significant biomarkers found")`) exactly when the
ranked biomarker table is empty.  On a non-empty ranked table it
returns an `EnrichmentCriteria` without raising provided the selection
loop never touches a column-less empty cutoff table — that is, provided
the cutoff table is non-empty or the `head(max_criteria)` slice is
empty; when the cutoff table is the column-less empty DataFrame the
batch optimizer can produce and the slice is non-empty, it raises a
pandas `KeyError` (which is not the domain error) instead of
returning. -/
theorem claim_C1_error_conditions (data : Dataset) (biomarker_results : List String)
    (cutoff_results : List CutoffRow) (max_criteria : ℕ) (min_eligible_fraction : ℚ) :
    (generateCriteria data biomarker_results cutoff_results max_criteria
        min_eligible_fraction = .error .noSignificantBiomarkers
      ↔ biomarker_results = [])
    ∧ (biomarker_results ≠ [] →
        (cutoff_results ≠ [] ∨ biomarker_results.take max_criteria = []) →
        ∃ ec, generateCriteria data biomarker_results cutoff_results max_criteria
            min_eligible_fraction = .ok ec)
    ∧ (biomarker_results ≠ [] → cutoff_results = [] →
        biomarker_results.take max_criteria ≠ [] →
        generateCriteria data biomarker_results cutoff_results max_criteria
            min_eligible_fraction = .error (.keyError "biomarker")) := by
  refine ⟨?_, ?_, ?_⟩
  · unfold generateCriteria
    split
    · simp [*]
    · constructor
      · intro h
        exfalso
        revert h
        split
        · simp
        · dsimp only
          split <;> simp
      · intro h
        simp_all
  · intro hne hor
    unfold generateCriteria
    rw [if_neg hne]
    rw [if_neg (fun hc => by
      rcases hor with hcr | htake
      · exact hcr hc.1
      · exact hc.2 htake)]
    dsimp only
    split
    · exact ⟨_, rfl⟩
    · exact ⟨_, rfl⟩
  · intro hne hcr htake
    unfold generateCriteria
    rw [if_neg hne, if_pos ⟨hcr, htake⟩]

/-- The arithmetic invariants of `_calculate_combined_impact`, read off
its guarded divisions. -/
lemma impact_fields (data : Dataset) (cuts : List (String × ℚ)) :
    (calcImpact data cuts).eligible_fraction
        = (if 0 < (calcImpact data cuts).n_total
           then ((calcImpact data cuts).n_eligible : ℚ) / ((calcImpact data cuts).n_total : ℚ)
           else 0)
    ∧ (0 < (calcImpact data cuts).response_rate_unenriched →
        (calcImpact data cuts).enrichment_factor
          = (calcImpact data cuts).response_rate_enriched
              / (calcImpact data cuts).response_rate_unenriched)
    ∧ ((calcImpact data cuts).response_rate_unenriched = 0 →
        (calcImpact data cuts).enrichment_factor = 1)
    ∧ (0 < (calcImpact data cuts).eligible_fraction →
        (calcImpact data cuts).number_needed_to_screen
          = some (1 / (calcImpact data cuts).eligible_fraction))
    ∧ ((calcImpact data cuts).eligible_fraction = 0 →
        (calcImpact data cuts).number_needed_to_screen = none)
    ∧ ((calcImpact data cuts).n_eligible = 0 →
        (calcImpact data cuts).response_rate_enriched = 0) := by
  unfold calcImpact
  dsimp only
  refine ⟨rfl, ?_, ?_, ?_, ?_, ?_⟩
  · intro h
    rw [if_pos h]
  · intro h
    rw [h]
    simp
  · intro h
    rw [if_pos h]
  · intro h
    rw [h]
    simp
  · intro h
    rw [h]
    simp

/-- C4: every `EnrichmentCriteria` returned by `generate_criteria`
satisfies the enrichment arithmetic: eligible_fraction is
n_eligible / n_total (0 when n_total = 0); enrichment_factor is
rate_enriched / rate_unenriched when the baseline is positive and 1 when
it is 0; number_needed_to_screen is 1 / eligible_fraction when that is
positive and infinite (`none`) when it is 0; and the enriched rate is 0
when n_eligible = 0. -/
theorem claim_C4_enrichment_arithmetic (data : Dataset) (biomarker_results : List String)
    (cutoff_results : List CutoffRow) (max_criteria : ℕ) (min_eligible_fraction : ℚ)
    (ec : EnrichmentCriteria)
    (h : generateCriteria data biomarker_results cutoff_results max_criteria
          min_eligible_fraction = .ok ec) :
    ec.eligible_fraction
        = (if 0 < ec.n_total then (ec.n_eligible : ℚ) / (ec.n_total : ℚ) else 0)
    ∧ (0 < ec.response_rate_unenriched →
        ec.enrichment_factor = ec.response_rate_enriched / ec.response_rate_unenriched)
    ∧ (ec.response_rate_unenriched = 0 → ec.enrichment_factor = 1)
    ∧ (0 < ec.eligible_fraction →
        ec.number_needed_to_screen = some (1 / ec.eligible_fraction))
    ∧ (ec.eligible_fraction = 0 → ec.number_needed_to_screen = none)
    ∧ (ec.n_eligible = 0 → ec.response_rate_enriched = 0) := by
  unfold generateCriteria at h
  split at h
  · simp at h
  · split at h
    · simp at h
    · dsimp only at h
      split at h
      · obtain rfl := Except.ok.inj h
        exact impact_fields data _
      · obtain rfl := Except.ok.inj h
        exact impact_fields data _

/-- C9: a patient whose outcome is present but who has a missing value
for one of the cutoff biomarkers (a biomarker that is a dataset column)
is counted in `n_total` yet can never be eligible: the pandas
comparison `NaN >= cutoff` is `False`, so the AND mask excludes the
row. -/
theorem claim_C9_missing_value_ineligible (data : Dataset) (cuts : List (String × ℚ))
    (r : Row) (b : String) (c : ℚ)
    (hr : r ∈ data.rows) (hout : r.outcome.isSome = true)
    (hbc : (b, c) ∈ cuts) (hcol : data.cols.contains b = true)
    (hmiss : r.get b = none) :
    rowEligible data.cols cuts r = false
    ∧ (calcImpact data cuts).n_total
        = (data.rows.filter (fun row => row.outcome.isSome)).length
    ∧ r ∈ data.rows.filter (fun row => row.outcome.isSome)
    ∧ r ∉ (data.rows.filter (fun row => row.outcome.isSome)).filter
            (rowEligible data.cols cuts) := by
  have hfail : rowEligible data.cols cuts r = false := by
    cases hE : rowEligible data.cols cuts r with
    | false => rfl
    | true =>
      exfalso
      have hall := List.all_eq_true.mp hE (b, c) hbc
      rw [if_pos hcol] at hall
      unfold valGE at hall
      rw [hmiss] at hall
      exact Bool.false_ne_true hall
  refine ⟨hfail, rfl, ?_, ?_⟩
  · exact List.mem_filter.mpr ⟨hr, hout⟩
  · intro hmem
    have := (List.mem_filter.mp hmem).2
    rw [hfail] at this
    exact Bool.false_ne_true this

/-- The selection loop of `generate_criteria` leaves its accumulators
unchanged when no processed biomarker has a cutoff-table entry. -/
lemma foldl_selectStep_of_no_cutoff (cutoff_results : List CutoffRow) (l : List String)
    (acc : Selection) (h : ∀ b ∈ l, cutOf cutoff_results b = none) :
    l.foldl (selectStep cutoff_results) acc = acc := by
  induction l generalizing acc with
  | nil => rfl
  | cons x xs ih =>
    have hx : cutoff_results.find? (fun row => row.biomarker == x) = none := by
      have hcx := h x (List.mem_cons_self x xs)
      unfold cutOf at hcx
      exact Option.map_eq_none'.mp hcx
    rw [List.foldl_cons]
    rw [show selectStep cutoff_results acc x = acc by unfold selectStep; rw [hx]]
    exact ih acc (fun b hb => h b (List.mem_cons_of_mem x hb))

/-- Dataset for the C10 counterexample: one patient, biomarker column
present, outcome missing. -/
def noOutcomeData : Dataset := ⟨["x"], [⟨none, [("x", 5)]⟩]⟩

/-- C10 counterexample: with a non-empty ranked table, a non-empty
cutoff table whose only entry matches no selected biomarker, and a
dataset in which no patient has a non-missing outcome, the code returns
`eligible_fraction = 0.0` (the `n_total > 0` guard fails), not the
claimed `1.0`. -/
theorem claim_C10_counterexample :
    (generateCriteria noOutcomeData ["x"] [⟨"z", 7⟩] 3 1).toOption.map
        (fun ec => ec.eligible_fraction) = some 0
    ∧ (0 : ℚ) ≠ 1 := by
  constructor
  · rfl
  · norm_num

/-- C10 (amended): if `generate_criteria` is called with a non-empty
ranked table, a non-empty cutoff table in which no selected biomarker
has a matching entry (on the column-less *empty* cutoff table the loop
raises a `KeyError` instead — see C1), and at least one patient has a
non-missing outcome, it does not raise and returns an
`EnrichmentCriteria` with empty criteria list, empty `biomarkers_used`,
empty cutoff map, `n_eligible = n_total`, `eligible_fraction = 1`,
equal enriched and unenriched response rates, and
`enrichment_factor = 1` when the baseline rate is positive.  (When no
patient has a non-missing outcome the call still returns, but with
`eligible_fraction = 0`.) -/
theorem claim_C10_no_matching_cutoffs (data : Dataset) (biomarker_results : List String)
    (cutoff_results : List CutoffRow) (max_criteria : ℕ) (min_eligible_fraction : ℚ)
    (hne : biomarker_results ≠ [])
    (hcr : cutoff_results ≠ [])
    (hnocut : ∀ b ∈ biomarker_results.take max_criteria, cutOf cutoff_results b = none)
    (hpos : 0 < (data.rows.filter (fun r => r.outcome.isSome)).length) :
    generateCriteria data biomarker_results cutoff_results max_criteria
        min_eligible_fraction = .ok (mkEC ⟨[], [], []⟩ (calcImpact data []))
    ∧ (calcImpact data []).n_eligible = (calcImpact data []).n_total
    ∧ (calcImpact data []).eligible_fraction = 1
    ∧ (calcImpact data []).response_rate_enriched
        = (calcImpact data []).response_rate_unenriched
    ∧ (0 < (calcImpact data []).response_rate_unenriched →
        (calcImpact data []).enrichment_factor = 1) := by
  have hsel : selectTop biomarker_results cutoff_results max_criteria = ⟨[], [], []⟩ := by
    unfold selectTop
    exact foldl_selectStep_of_no_cutoff cutoff_results _ _ hnocut
  have hfil : (data.rows.filter (fun r => r.outcome.isSome)).filter
      (rowEligible data.cols []) = data.rows.filter (fun r => r.outcome.isSome) :=
    List.filter_eq_self.mpr (fun a _ => rfl)
  have hlen : ((data.rows.filter (fun r => r.outcome.isSome)).length : ℚ) ≠ 0 :=
    Nat.cast_ne_zero.mpr (Nat.pos_iff_ne_zero.mp hpos)
  have hnel : (calcImpact data []).n_eligible = (calcImpact data []).n_total := by
    unfold calcImpact
    dsimp only
    rw [hfil]
  have hef : (calcImpact data []).eligible_fraction = 1 := by
    unfold calcImpact
    dsimp only
    rw [hfil, if_pos hpos, div_self hlen]
  have hrre : (calcImpact data []).response_rate_enriched
      = (calcImpact data []).response_rate_unenriched := by
    unfold calcImpact
    dsimp only
    rw [hfil, if_pos hpos]
  refine ⟨?_, hnel, hef, hrre, ?_⟩
  · unfold generateCriteria
    rw [if_neg hne]
    rw [if_neg (fun hc => hcr hc.1)]
    dsimp only
    rw [hsel]
    dsimp only
    rw [if_neg]
    intro hcond
    simp at hcond
  · intro h
    have hfac : (calcImpact data []).enrichment_factor
        = (calcImpact data []).response_rate_enriched
            / (calcImpact data []).response_rate_unenriched :=
      (impact_fields data []).2.1 h
    rw [hfac, hrre, div_self (ne_of_gt h)]

/-- A one-patient dataset with outcome present and biomarker `x = 5`. -/
def oneRowData : Dataset := ⟨["x"], [⟨some 1, [("x", 5)]⟩]⟩

/-- The `EnrichmentCriteria` value that `generate_criteria` returns on
`oneRowData` with ranked table `["x"]` and cutoff table `x ↦ 3`. -/
def ecOneRow : EnrichmentCriteria :=
  mkEC ⟨[("x", 3)], ["x"], [("x", 3)]⟩ (calcImpact oneRowData [("x", 3)])

/-- Witness for C4 at a concrete successful call. -/
theorem claim_C4_witness :
    generateCriteria oneRowData ["x"] [⟨"x", 3⟩] 3 0 = .ok ecOneRow
    ∧ (ecOneRow.eligible_fraction
          = (if 0 < ecOneRow.n_total
             then (ecOneRow.n_eligible : ℚ) / (ecOneRow.n_total : ℚ) else 0)
       ∧ (0 < ecOneRow.response_rate_unenriched →
            ecOneRow.enrichment_factor
              = ecOneRow.response_rate_enriched / ecOneRow.response_rate_unenriched)
       ∧ (ecOneRow.response_rate_unenriched = 0 → ecOneRow.enrichment_factor = 1)
       ∧ (0 < ecOneRow.eligible_fraction →
            ecOneRow.number_needed_to_screen = some (1 / ecOneRow.eligible_fraction))
       ∧ (ecOneRow.eligible_fraction = 0 → ecOneRow.number_needed_to_screen = none)
       ∧ (ecOneRow.n_eligible = 0 → ecOneRow.response_rate_enriched = 0)) := by
  have h : generateCriteria oneRowData ["x"] [⟨"x", 3⟩] 3 0 = .ok ecOneRow := by
    norm_num [generateCriteria, selectTop, selectStep, dictInsert, calcImpact, mkEC,
      oneRowData, ecOneRow, qmean, rowEligible, valGE, Row.get]
  exact ⟨h, claim_C4_enrichment_arithmetic oneRowData ["x"] [⟨"x", 3⟩] 3 0 ecOneRow h⟩

/-- A patient row with outcome present and no biomarker cell. -/
def maskRow : Row := ⟨some 1, []⟩

/-- A one-patient dataset whose single patient has a missing `x`. -/
def maskData : Dataset := ⟨["x"], [maskRow]⟩

/-- Witness for C9 at a concrete patient with a missing biomarker
value. -/
theorem claim_C9_witness :
    (maskRow ∈ maskData.rows ∧ maskRow.outcome.isSome = true
      ∧ ("x", (3 : ℚ)) ∈ [("x", (3 : ℚ))] ∧ maskData.cols.contains "x" = true
      ∧ maskRow.get "x" = none)
    ∧ (rowEligible maskData.cols [("x", 3)] maskRow = false
       ∧ (calcImpact maskData [("x", 3)]).n_total
           = (maskData.rows.filter (fun row => row.outcome.isSome)).length
       ∧ maskRow ∈ maskData.rows.filter (fun row => row.outcome.isSome)
       ∧ maskRow ∉ (maskData.rows.filter (fun row => row.outcome.isSome)).filter
               (rowEligible maskData.cols [("x", 3)])) := by
  have h1 : maskRow ∈ maskData.rows := by simp [maskData]
  have h3 : ("x", (3 : ℚ)) ∈ [("x", (3 : ℚ))] := by simp
  exact ⟨⟨h1, rfl, h3, rfl, rfl⟩,
    claim_C9_missing_value_ineligible maskData [("x", 3)] maskRow "x" 3 h1 rfl h3 rfl rfl⟩

/-- Witness for C10 (amended) at a concrete call: ranked table `["y"]`,
empty cutoff table, one patient with outcome present. -/
theorem claim_C10_witness :
    ((["y"] : List String) ≠ []
      ∧ ([⟨"z", 7⟩] : List CutoffRow) ≠ []
      ∧ (∀ b ∈ (["y"] : List String).take 3, cutOf [⟨"z", 7⟩] b = none)
      ∧ 0 < (oneRowData.rows.filter (fun r => r.outcome.isSome)).length)
    ∧ (generateCriteria oneRowData ["y"] [⟨"z", 7⟩] 3 (1/5)
          = .ok (mkEC ⟨[], [], []⟩ (calcImpact oneRowData []))
       ∧ (calcImpact oneRowData []).n_eligible = (calcImpact oneRowData []).n_total
       ∧ (calcImpact oneRowData []).eligible_fraction = 1
       ∧ (calcImpact oneRowData []).response_rate_enriched
           = (calcImpact oneRowData []).response_rate_unenriched
       ∧ (0 < (calcImpact oneRowData []).response_rate_unenriched →
           (calcImpact oneRowData []).enrichment_factor = 1)) := by
  have h1 : (["y"] : List String) ≠ [] := by simp
  have hcr : ([⟨"z", 7⟩] : List CutoffRow) ≠ [] := by simp
  have h2 : ∀ b ∈ (["y"] : List String).take 3, cutOf [⟨"z", 7⟩] b = none := by
    intro b hb
    simp at hb
    subst hb
    rfl
  have h3 : 0 < (oneRowData.rows.filter (fun r => r.outcome.isSome)).length := by
    simp [oneRowData]
  exact ⟨⟨h1, hcr, h2, h3⟩,
    claim_C10_no_matching_cutoffs oneRowData ["y"] [⟨"z", 7⟩] 3 (1/5) h1 hcr h2 h3⟩

/-- Counterexample for C1 as originally stated: on the non-empty ranked
table `["x"]` with the column-less empty cutoff table produced by a
batch run in which every biomarker failed, `generate_criteria` raises a
pandas `KeyError` — it neither returns a value nor raises the domain
error. -/
theorem claim_C1_counterexample :
    generateCriteria oneRowData ["x"] ([] : List CutoffRow) 3 (1/5)
        = .error (.keyError "biomarker")
    ∧ (["x"] : List String) ≠ []
    ∧ CriteriaError.keyError "biomarker" ≠ CriteriaError.noSignificantBiomarkers := by
  refine ⟨rfl, by simp, by simp⟩

/-- Witness for C1 (amended) at a concrete call with a non-empty cutoff
table. -/
theorem claim_C1_witness :
    ((["x"] : List String) ≠ [] ∧ ([⟨"x", 3⟩] : List CutoffRow) ≠ [])
    ∧ ∃ ec, generateCriteria oneRowData ["x"] [⟨"x", 3⟩] 3 0 = .ok ec := by
  have h1 : (["x"] : List String) ≠ [] := by simp
  have h2 : ([⟨"x", 3⟩] : List CutoffRow) ≠ [] := by simp
  exact ⟨⟨h1, h2⟩,
    (claim_C1_error_conditions oneRowData ["x"] [⟨"x", 3⟩] 3 0).2.1 h1 (Or.inl h2)⟩

/-! ### Structure of the selection loop (used by C2 and C3) -/

/-- Booleans are equal when they are equi-valid. -/
lemma bool_eq_of_iff {a b : Bool} (h : a = true ↔ b = true) : a = b := by
  cases a <;> cases b <;> simp_all

/-- Membership after a Python-dict assignment. -/
lemma mem_dictInsert {dct : List (String × ℚ)} {k : String} {v : ℚ} {p : String × ℚ}
    (h : p ∈ dictInsert dct k v) : p = (k, v) ∨ p ∈ dct := by
  unfold dictInsert at h
  split at h
  · obtain ⟨q, hq, heq⟩ := List.mem_map.mp h
    by_cases hk : (q.1 == k) = true
    · rw [if_pos hk] at heq
      exact Or.inl heq.symm
    · rw [if_neg hk] at heq
      exact Or.inr (heq ▸ hq)
  · rcases List.mem_append.mp h with hm | hm
    · exact Or.inr hm
    · exact Or.inl (List.mem_singleton.mp hm)

/-- After assigning key `k`, the dictionary holds key `k`. -/
lemma hasKey_dictInsert_self (dct : List (String × ℚ)) (k : String) (v : ℚ) :
    (dictInsert dct k v).any (fun p => p.1 == k) = true := by
  unfold dictInsert
  split
  · rename_i hany
    obtain ⟨q, hq, hqk⟩ := List.any_eq_true.mp hany
    refine List.any_eq_true.mpr ⟨(k, v), ?_, by simp⟩
    refine List.mem_map.mpr ⟨q, hq, ?_⟩
    rw [if_pos hqk]
  · exact List.any_eq_true.mpr ⟨(k, v), by simp, by simp⟩

/-- A Python-dict assignment never removes an existing key. -/
lemma hasKey_dictInsert_mono {dct : List (String × ℚ)} {k' : String} (k : String) (v : ℚ)
    (h : dct.any (fun p => p.1 == k') = true) :
    (dictInsert dct k v).any (fun p => p.1 == k') = true := by
  unfold dictInsert
  split
  · obtain ⟨q, hq, hq'⟩ := List.any_eq_true.mp h
    by_cases hk : (q.1 == k) = true
    · refine List.any_eq_true.mpr ⟨(k, v), List.mem_map.mpr ⟨q, hq, by rw [if_pos hk]⟩, ?_⟩
      have h1 : q.1 = k' := by simpa using hq'
      have h2 : q.1 = k := by simpa using hk
      simp [← h1, ← h2]
    · exact List.any_eq_true.mpr ⟨q, List.mem_map.mpr ⟨q, hq, by rw [if_neg hk]⟩, hq'⟩
  · obtain ⟨q, hq, hq'⟩ := List.any_eq_true.mp h
    exact List.any_eq_true.mpr ⟨q, List.mem_append_left _ hq, hq'⟩

/-- A Python-dict assignment never empties the dictionary. -/
lemma dictInsert_ne_nil (dct : List (String × ℚ)) (k : String) (v : ℚ) :
    dictInsert dct k v ≠ [] := by
  unfold dictInsert
  split
  · rename_i hany
    intro hmap
    rw [List.map_eq_nil_iff] at hmap
    rw [hmap] at hany
    simp at hany
  · intro happ
    rcases List.append_eq_nil.mp happ with ⟨_, h2⟩
    exact List.cons_ne_nil _ _ h2

/-- A Python-dict assignment keeps the key of the first entry. -/
lemma headI_key_dictInsert {dct : List (String × ℚ)} (k : String) (v : ℚ)
    (h : dct ≠ []) : (dictInsert dct k v).headI.1 = dct.headI.1 := by
  unfold dictInsert
  split
  · cases dct with
    | nil => exact absurd rfl h
    | cons p rest =>
      rw [List.map_cons]
      by_cases hk : (p.1 == k) = true
      · have heq : p.1 = k := by simpa using hk
        simp [if_pos hk, List.headI, heq]
      · have hne : ¬p.1 = k := by simpa using hk
        simp [List.headI, hne]
  · cases dct with
    | nil => exact absurd rfl h
    | cons p rest => simp [List.headI]

/-- The first element of a nonempty list survives an append. -/
lemma headI_append_of_ne_nil {α : Type} [Inhabited α] {l : List α} (l' : List α)
    (h : l ≠ []) : (l ++ l').headI = l.headI := by
  cases l with
  | nil => exact absurd rfl h
  | cons x xs => rfl

/-- The `biomarkers_used` accumulator collects, in order, exactly the
processed biomarkers that have a cutoff-table entry. -/
lemma selectTop_biomarkers_used (cutoff_results : List CutoffRow) (l : List String)
    (acc : Selection) :
    (l.foldl (selectStep cutoff_results) acc).biomarkers_used
      = acc.biomarkers_used ++ l.filter (fun b => (cutOf cutoff_results b).isSome) := by
  induction l generalizing acc with
  | nil => simp
  | cons x xs ih =>
    rw [List.foldl_cons]
    cases hfind : cutoff_results.find? (fun row => row.biomarker == x) with
    | none =>
      have hsel : selectStep cutoff_results acc x = acc := by
        unfold selectStep
        rw [hfind]
      have hcut : (cutOf cutoff_results x).isSome = false := by
        unfold cutOf
        rw [hfind]
        rfl
      rw [hsel, ih, List.filter_cons, hcut]
      simp
    | some row =>
      have hsel : selectStep cutoff_results acc x
          = ⟨acc.criteria ++ [(x, row.cutoff)], acc.biomarkers_used ++ [x],
             dictInsert acc.cutoffs_dict x row.cutoff⟩ := by
        unfold selectStep
        rw [hfind]
      have hcut : (cutOf cutoff_results x).isSome = true := by
        unfold cutOf
        rw [hfind]
        rfl
      rw [hsel, ih, List.filter_cons, hcut]
      simp

/-- Every entry of the cutoff dictionary built by the selection loop
records the first matching cutoff of a processed biomarker. -/
lemma selectTop_dict_mem (cutoff_results : List CutoffRow) (l : List String)
    (acc : Selection) (p : String × ℚ)
    (hp : p ∈ (l.foldl (selectStep cutoff_results) acc).cutoffs_dict) :
    p ∈ acc.cutoffs_dict ∨ (cutOf cutoff_results p.1 = some p.2 ∧ p.1 ∈ l) := by
  induction l generalizing acc with
  | nil => exact Or.inl hp
  | cons x xs ih =>
    rw [List.foldl_cons] at hp
    cases hfind : cutoff_results.find? (fun row => row.biomarker == x) with
    | none =>
      rw [show selectStep cutoff_results acc x = acc from by unfold selectStep; rw [hfind]] at hp
      rcases ih _ hp with h | ⟨h1, h2⟩
      · exact Or.inl h
      · exact Or.inr ⟨h1, List.mem_cons_of_mem x h2⟩
    | some row =>
      rw [show selectStep cutoff_results acc x
            = ⟨acc.criteria ++ [(x, row.cutoff)], acc.biomarkers_used ++ [x],
               dictInsert acc.cutoffs_dict x row.cutoff⟩ from by
            unfold selectStep; rw [hfind]] at hp
      rcases ih _ hp with h | ⟨h1, h2⟩
      · rcases mem_dictInsert h with he | hm
        · refine Or.inr ⟨?_, ?_⟩
          · rw [he]
            unfold cutOf
            rw [hfind]
            rfl
          · rw [he]
            exact List.mem_cons_self x xs
        · exact Or.inl hm
      · exact Or.inr ⟨h1, List.mem_cons_of_mem x h2⟩

/-- Keys present in the accumulator dictionary survive the rest of the
selection loop. -/
lemma hasKey_foldl_mono (cutoff_results : List CutoffRow) (l : List String)
    (acc : Selection) (k : String)
    (h : acc.cutoffs_dict.any (fun p => p.1 == k) = true) :
    ((l.foldl (selectStep cutoff_results) acc).cutoffs_dict.any (fun p => p.1 == k))
      = true := by
  induction l generalizing acc with
  | nil => exact h
  | cons x xs ih =>
    rw [List.foldl_cons]
    cases hfind : cutoff_results.find? (fun row => row.biomarker == x) with
    | none =>
      rw [show selectStep cutoff_results acc x = acc from by unfold selectStep; rw [hfind]]
      exact ih _ h
    | some row =>
      rw [show selectStep cutoff_results acc x
            = ⟨acc.criteria ++ [(x, row.cutoff)], acc.biomarkers_used ++ [x],
               dictInsert acc.cutoffs_dict x row.cutoff⟩ from by
            unfold selectStep; rw [hfind]]
      exact ih _ (hasKey_dictInsert_mono x row.cutoff h)

/-- Every processed biomarker with a cutoff-table entry ends up as a key
of the cutoff dictionary. -/
lemma selectTop_dict_covers (cutoff_results : List CutoffRow) (l : List String)
    (k : String) (hc : (cutOf cutoff_results k).isSome = true) :
    ∀ acc : Selection, k ∈ l →
      ((l.foldl (selectStep cutoff_results) acc).cutoffs_dict.any (fun p => p.1 == k))
        = true := by
  induction l with
  | nil =>
    intro acc hk
    cases hk
  | cons x xs ih =>
    intro acc hk
    rw [List.foldl_cons]
    rcases List.mem_cons.mp hk with rfl | hmem
    · cases hfind : cutoff_results.find? (fun row => row.biomarker == k) with
      | none =>
        exfalso
        unfold cutOf at hc
        rw [hfind] at hc
        exact Bool.false_ne_true hc
      | some row =>
        rw [show selectStep cutoff_results acc k
              = ⟨acc.criteria ++ [(k, row.cutoff)], acc.biomarkers_used ++ [k],
                 dictInsert acc.cutoffs_dict k row.cutoff⟩ from by
              unfold selectStep; rw [hfind]]
        exact hasKey_foldl_mono cutoff_results xs _ k
          (hasKey_dictInsert_self acc.cutoffs_dict k row.cutoff)
    · cases hfind : cutoff_results.find? (fun row => row.biomarker == x) with
      | none =>
        rw [show selectStep cutoff_results acc x = acc from by unfold selectStep; rw [hfind]]
        exact ih acc hmem
      | some row =>
        rw [show selectStep cutoff_results acc x
              = ⟨acc.criteria ++ [(x, row.cutoff)], acc.biomarkers_used ++ [x],
                 dictInsert acc.cutoffs_dict x row.cutoff⟩ from by
              unfold selectStep; rw [hfind]]
        exact ih _ hmem

/-- Invariant of the selection loop: the dictionary and the
`biomarkers_used` list are empty together, and otherwise the key of the
first dictionary entry is the first used biomarker. -/
lemma selectTop_headI_invariant (cutoff_results : List CutoffRow) (l : List String)
    (acc : Selection)
    (hinv : acc.cutoffs_dict = [] ∧ acc.biomarkers_used = []
            ∨ (acc.cutoffs_dict ≠ [] ∧ acc.biomarkers_used ≠ []
               ∧ acc.cutoffs_dict.headI.1 = acc.biomarkers_used.headI)) :
    (l.foldl (selectStep cutoff_results) acc).cutoffs_dict = []
        ∧ (l.foldl (selectStep cutoff_results) acc).biomarkers_used = []
    ∨ ((l.foldl (selectStep cutoff_results) acc).cutoffs_dict ≠ []
       ∧ (l.foldl (selectStep cutoff_results) acc).biomarkers_used ≠ []
       ∧ (l.foldl (selectStep cutoff_results) acc).cutoffs_dict.headI.1
           = (l.foldl (selectStep cutoff_results) acc).biomarkers_used.headI) := by
  induction l generalizing acc with
  | nil => exact hinv
  | cons x xs ih =>
    rw [List.foldl_cons]
    cases hfind : cutoff_results.find? (fun row => row.biomarker == x) with
    | none =>
      rw [show selectStep cutoff_results acc x = acc from by unfold selectStep; rw [hfind]]
      exact ih _ hinv
    | some row =>
      rw [show selectStep cutoff_results acc x
            = ⟨acc.criteria ++ [(x, row.cutoff)], acc.biomarkers_used ++ [x],
               dictInsert acc.cutoffs_dict x row.cutoff⟩ from by
            unfold selectStep; rw [hfind]]
      apply ih
      rcases hinv with ⟨hd, hu⟩ | ⟨hd, hu, hk⟩
      · refine Or.inr ⟨?_, ?_, ?_⟩
        · exact dictInsert_ne_nil _ _ _
        · simp
        · rw [hd, hu]
          simp [dictInsert, List.headI]
      · refine Or.inr ⟨dictInsert_ne_nil _ _ _, by simp, ?_⟩
        rw [headI_key_dictInsert x row.cutoff hd, headI_append_of_ne_nil [x] hu, hk]

/-- C2: before any backoff, `generate_criteria` selects exactly the
biomarkers of the first `max_criteria` ranked entries that have a
matching cutoff entry, in ranked order (`selectedSpec`), and —
whenever the selected biomarkers are dataset columns — the combined
eligibility rule applied to a row is the logical AND over the selected
biomarkers of `biomarker value ≥ its cutoff` (the first matching cutoff). -/
theorem claim_C2_selection_and_rule (data : Dataset) (biomarker_results : List String)
    (cutoff_results : List CutoffRow) (max_criteria : ℕ)
    (hcols : ∀ b ∈ selectedSpec biomarker_results cutoff_results max_criteria,
        data.cols.contains b = true) :
    (selectTop biomarker_results cutoff_results max_criteria).biomarkers_used
        = selectedSpec biomarker_results cutoff_results max_criteria
    ∧ ∀ r : Row,
        rowEligible data.cols
            (selectTop biomarker_results cutoff_results max_criteria).cutoffs_dict r
          = (selectedSpec biomarker_results cutoff_results max_criteria).all
              (fun b => valGE r b ((cutOf cutoff_results b).getD 0)) := by
  have hused : (selectTop biomarker_results cutoff_results max_criteria).biomarkers_used
      = selectedSpec biomarker_results cutoff_results max_criteria := by
    unfold selectTop selectedSpec
    rw [selectTop_biomarkers_used]
    simp
  refine ⟨hused, ?_⟩
  intro r
  apply bool_eq_of_iff
  unfold rowEligible
  rw [List.all_eq_true, List.all_eq_true]
  constructor
  · intro hall b hb
    obtain ⟨hmem, hsome⟩ := List.mem_filter.mp hb
    obtain ⟨p, hp, hpk⟩ := List.any_eq_true.mp
      (selectTop_dict_covers cutoff_results (biomarker_results.take max_criteria) b
        hsome ⟨[], [], []⟩ hmem)
    have hpb : p.1 = b := by simpa using hpk
    have hpv : cutOf cutoff_results p.1 = some p.2 := by
      rcases selectTop_dict_mem cutoff_results _ _ p hp with hnil | ⟨h1, _⟩
      · simp at hnil
      · exact h1
    have hcond := hall p hp
    rw [if_pos (by rw [hpb]; exact hcols b hb)] at hcond
    rw [hpb] at hpv
    rw [hpv]
    rw [hpb] at hcond
    exact hcond
  · intro hall p hp
    rcases selectTop_dict_mem cutoff_results _ _ p hp with hnil | ⟨hcut, hin⟩
    · simp at hnil
    · have hbsel : p.1 ∈ selectedSpec biomarker_results cutoff_results max_criteria :=
        List.mem_filter.mpr ⟨hin, by rw [hcut]; rfl⟩
      have hval := hall p.1 hbsel
      rw [hcut] at hval
      rw [if_pos (hcols p.1 hbsel)]
      exact hval

/-- Witness data for C2/C3: five patients over columns `a`, `b`; only
the first is eligible for the joint rule `a ≥ 10 ∧ b ≥ 10`. -/
def fiveRowData : Dataset :=
  ⟨["a", "b"],
   [⟨some 1, [("a", 10), ("b", 10)]⟩,
    ⟨some 0, [("a", 0), ("b", 0)]⟩,
    ⟨some 0, [("a", 0), ("b", 0)]⟩,
    ⟨some 0, [("a", 0), ("b", 0)]⟩,
    ⟨some 0, [("a", 0), ("b", 0)]⟩]⟩

/-- The cutoff table for the C2/C3 witnesses. -/
def twoCutoffs : List CutoffRow := [⟨"a", 10⟩, ⟨"b", 10⟩]

/-- Witness for C2 at a concrete call with two selected biomarkers. -/
theorem claim_C2_witness :
    (∀ b ∈ selectedSpec ["a", "b"] twoCutoffs 3, fiveRowData.cols.contains b = true)
    ∧ ((selectTop ["a", "b"] twoCutoffs 3).biomarkers_used
          = selectedSpec ["a", "b"] twoCutoffs 3
       ∧ ∀ r : Row,
           rowEligible fiveRowData.cols (selectTop ["a", "b"] twoCutoffs 3).cutoffs_dict r
             = (selectedSpec ["a", "b"] twoCutoffs 3).all
                 (fun b => valGE r b ((cutOf twoCutoffs b).getD 0))) := by
  have hcols : ∀ b ∈ selectedSpec ["a", "b"] twoCutoffs 3,
      fiveRowData.cols.contains b = true := by
    intro b hb
    simp [selectedSpec, cutOf, twoCutoffs, fiveRowData] at hb ⊢
    rcases hb with rfl | rfl <;> simp
  exact ⟨hcols, claim_C2_selection_and_rule fiveRowData ["a", "b"] twoCutoffs 3 hcols⟩

/-- A non-empty cutoff dictionary can only have been built from a
non-empty cutoff table (each entry records a successful lookup), so the
`KeyError` path of `generateCriteria` is unreachable whenever the
backoff condition holds. -/
lemma cutoff_table_ne_nil_of_dict_ne_nil {biomarker_results : List String}
    {cutoff_results : List CutoffRow} {max_criteria : ℕ}
    (hd : (selectTop biomarker_results cutoff_results max_criteria).cutoffs_dict ≠ []) :
    cutoff_results ≠ [] := by
  intro hcr
  subst hcr
  obtain ⟨q, qs, hq⟩ := List.exists_cons_of_ne_nil hd
  have hqmem : q ∈ (selectTop biomarker_results [] max_criteria).cutoffs_dict := by
    rw [hq]
    exact List.mem_cons_self q qs
  rcases selectTop_dict_mem [] _ _ q hqmem with hnil | ⟨h1, _⟩
  · simp at hnil
  · unfold cutOf at h1
    simp at h1

/-- C3: when the combined rule's eligible fraction is below the floor
and more than one biomarker was selected, `generate_criteria` backs off
exactly once to the single first-ranked selected biomarker and its
cutoff, returns the `EnrichmentCriteria` of that single rule with all
metrics recomputed by `_calculate_combined_impact` on it, and does so
regardless of whether the single rule itself clears the floor. -/
theorem claim_C3_backoff (data : Dataset) (biomarker_results : List String)
    (cutoff_results : List CutoffRow) (max_criteria : ℕ) (min_eligible_fraction : ℚ)
    (hne : biomarker_results ≠ [])
    (hlow : (calcImpact data
        (selectTop biomarker_results cutoff_results max_criteria).cutoffs_dict
        ).eligible_fraction < min_eligible_fraction)
    (hmulti : 1 < (selectTop biomarker_results cutoff_results max_criteria
        ).cutoffs_dict.length) :
    generateCriteria data biomarker_results cutoff_results max_criteria
        min_eligible_fraction
      = .ok (mkEC
          ⟨(selectTop biomarker_results cutoff_results max_criteria).criteria.take 1,
           (selectTop biomarker_results cutoff_results max_criteria).biomarkers_used.take 1,
           [(selectTop biomarker_results cutoff_results max_criteria).cutoffs_dict.headI]⟩
          (calcImpact data
            [(selectTop biomarker_results cutoff_results max_criteria).cutoffs_dict.headI]))
    ∧ (selectTop biomarker_results cutoff_results max_criteria).biomarkers_used.take 1
        = [(selectedSpec biomarker_results cutoff_results max_criteria).headI]
    ∧ (selectTop biomarker_results cutoff_results max_criteria).cutoffs_dict.headI.1
        = (selectedSpec biomarker_results cutoff_results max_criteria).headI
    ∧ cutOf cutoff_results
        (selectTop biomarker_results cutoff_results max_criteria).cutoffs_dict.headI.1
        = some (selectTop biomarker_results cutoff_results max_criteria
            ).cutoffs_dict.headI.2 := by
  have hdict_ne : (selectTop biomarker_results cutoff_results max_criteria
      ).cutoffs_dict ≠ [] := by
    intro hnil
    rw [hnil] at hmulti
    simp at hmulti
  have hinv := selectTop_headI_invariant cutoff_results
    (biomarker_results.take max_criteria) ⟨[], [], []⟩ (Or.inl ⟨rfl, rfl⟩)
  rw [show List.foldl (selectStep cutoff_results) (⟨[], [], []⟩ : Selection)
        (biomarker_results.take max_criteria)
      = selectTop biomarker_results cutoff_results max_criteria from rfl] at hinv
  rcases hinv with ⟨hd, _⟩ | ⟨_, hu_ne, hkey⟩
  · exact absurd hd hdict_ne
  · have hused : (selectTop biomarker_results cutoff_results max_criteria).biomarkers_used
        = selectedSpec biomarker_results cutoff_results max_criteria := by
      unfold selectTop selectedSpec
      rw [selectTop_biomarkers_used]
      simp
    refine ⟨?_, ?_, ?_, ?_⟩
    · unfold generateCriteria
      rw [if_neg hne]
      rw [if_neg (fun hc => cutoff_table_ne_nil_of_dict_ne_nil hdict_ne hc.1)]
      dsimp only
      rw [if_pos ⟨hlow, hmulti⟩]
    · rw [hused] at hu_ne ⊢
      cases hsel : selectedSpec biomarker_results cutoff_results max_criteria with
      | nil => exact absurd hsel hu_ne
      | cons u us => simp [List.headI]
    · rw [hkey, hused]
    · obtain ⟨q, qs, hq⟩ := List.exists_cons_of_ne_nil hdict_ne
      have hqmem : (selectTop biomarker_results cutoff_results max_criteria
          ).cutoffs_dict.headI ∈ (selectTop biomarker_results cutoff_results max_criteria
          ).cutoffs_dict := by
        rw [hq]
        exact List.mem_cons_self q qs
      rcases selectTop_dict_mem cutoff_results _ _ _ hqmem with hnil | ⟨h1, _⟩
      · simp at hnil
      · exact h1

/-- Witness for C3: two selected biomarkers, joint eligible fraction
1/5 below the floor 1/2, so the backoff to biomarker `a` fires. -/
theorem claim_C3_witness :
    ((["a", "b"] : List String) ≠ []
      ∧ (calcImpact fiveRowData
          (selectTop ["a", "b"] twoCutoffs 3).cutoffs_dict).eligible_fraction < 1/2
      ∧ 1 < (selectTop ["a", "b"] twoCutoffs 3).cutoffs_dict.length)
    ∧ (generateCriteria fiveRowData ["a", "b"] twoCutoffs 3 (1/2)
        = .ok (mkEC
            ⟨(selectTop ["a", "b"] twoCutoffs 3).criteria.take 1,
             (selectTop ["a", "b"] twoCutoffs 3).biomarkers_used.take 1,
             [(selectTop ["a", "b"] twoCutoffs 3).cutoffs_dict.headI]⟩
            (calcImpact fiveRowData [(selectTop ["a", "b"] twoCutoffs 3).cutoffs_dict.headI]))
       ∧ (selectTop ["a", "b"] twoCutoffs 3).biomarkers_used.take 1
           = [(selectedSpec ["a", "b"] twoCutoffs 3).headI]
       ∧ (selectTop ["a", "b"] twoCutoffs 3).cutoffs_dict.headI.1
           = (selectedSpec ["a", "b"] twoCutoffs 3).headI
       ∧ cutOf twoCutoffs (selectTop ["a", "b"] twoCutoffs 3).cutoffs_dict.headI.1
           = some (selectTop ["a", "b"] twoCutoffs 3).cutoffs_dict.headI.2) := by
  have h1 : (["a", "b"] : List String) ≠ [] := by simp
  have hsel : (selectTop ["a", "b"] twoCutoffs 3).cutoffs_dict = [("a", 10), ("b", 10)] :=
    rfl
  have hfil : List.filter (rowEligible ["a", "b"] [("a", 10), ("b", 10)])
      [(⟨some 1, [("a", 10), ("b", 10)]⟩ : Row), ⟨some 0, [("a", 0), ("b", 0)]⟩,
       ⟨some 0, [("a", 0), ("b", 0)]⟩, ⟨some 0, [("a", 0), ("b", 0)]⟩,
       ⟨some 0, [("a", 0), ("b", 0)]⟩]
      = [⟨some 1, [("a", 10), ("b", 10)]⟩] := rfl
  have h2 : (calcImpact fiveRowData
      (selectTop ["a", "b"] twoCutoffs 3).cutoffs_dict).eligible_fraction < 1/2 := by
    rw [hsel]
    norm_num [calcImpact, fiveRowData, qmean, hfil]
  have h3 : 1 < (selectTop ["a", "b"] twoCutoffs 3).cutoffs_dict.length := by
    rw [hsel]
    norm_num
  exact ⟨⟨h1, h2, h3⟩, claim_C3_backoff fiveRowData ["a", "b"] twoCutoffs 3 (1/2) h1 h2 h3⟩

/-! ### Cutoff optimizer (`cutoff_optimizer.py`) -/

/-- Rows with both the biomarker and the outcome present, as
(value, outcome) pairs in dataset order (the `valid_idx` subset of
`optimize_cutoff`). -/
def completePairs (data : Dataset) (b : String) : List (ℚ × ℚ) :=
  data.rows.filterMap (fun r =>
    match r.get b, r.outcome with
    | some x, some y => some (x, y)
    | _, _ => none)

/-- Insertion into a descending-sorted list.  Ties keep input order;
the curve construction cannot observe the order within a tie group
because equal scores are merged into one threshold. -/
def insertDesc (x : ℚ) : List ℚ → List ℚ
  | [] => [x]
  | y :: ys => if y < x then x :: y :: ys else y :: insertDesc x ys

/-- Descending sort of the fitted scores. -/
def sortDesc (l : List ℚ) : List ℚ := l.foldr insertDesc []

/-- Collapse adjacent duplicates (the `distinct_value_indices` step of
sklearn's `_binary_clf_curve`). -/
def dedupAdj : List ℚ → List ℚ
  | [] => []
  | [x] => [x]
  | x :: y :: rest => if x = y then dedupAdj (y :: rest) else x :: dedupAdj (y :: rest)

/-- Number of scores in `pairs` at least `t` carrying label `lab`
(`pairs` are (score, is-positive) pairs). -/
def countGe (pairs : List (ℚ × Bool)) (t : ℚ) (lab : Bool) : ℕ :=
  (pairs.filter (fun p => decide (t ≤ p.1) && (p.2 == lab))).length

/-- The cumulative curve of `_binary_clf_curve`: one (threshold,
false positives, true positives) triple per distinct score, scanned in
descending score order. -/
def basePoints (pairs : List (ℚ × Bool)) : List (ℚ × ℕ × ℕ) :=
  (dedupAdj (sortDesc (pairs.map (fun p => p.1)))).map
    (fun s => (s, countGe pairs s false, countGe pairs s true))

/-- Keep an interior curve point when a second difference of the
cumulative counts at it is nonzero (the `np.diff(fps, 2)`,
`np.diff(tps, 2)` test behind `drop_intermediate`); `prev` is the
original predecessor of `mid`. -/
def keepMid (prev mid next : ℚ × ℕ × ℕ) : Bool :=
  decide ((next.2.1 : ℤ) - mid.2.1 ≠ (mid.2.1 : ℤ) - prev.2.1)
    || decide ((next.2.2 : ℤ) - mid.2.2 ≠ (mid.2.2 : ℤ) - prev.2.2)

/-- Drop collinear interior points; the final point is always kept, and
each keep decision looks at the original neighbours. -/
def dropMids (prev : ℚ × ℕ × ℕ) : List (ℚ × ℕ × ℕ) → List (ℚ × ℕ × ℕ)
  | [] => []
  | [last] => [last]
  | mid :: next :: rest =>
      (if keepMid prev mid next then [mid] else []) ++ dropMids mid (next :: rest)

/-- sklearn `roc_curve` applies `drop_intermediate` only when the raw
curve has more than two points; the first point is always kept. -/
def rocRaw (pairs : List (ℚ × Bool)) : List (ℚ × ℕ × ℕ) :=
  let base := basePoints pairs
  if 2 < base.length then
    match base with
    | [] => []
    | x :: rest => x :: dropMids x rest
  else base

/-- One point of the normalized ROC curve; `thr = none` is the
artificial initial point prepended by `roc_curve` (threshold infinity,
`tpr = fpr = 0`). -/
structure RocPt where
  thr : Option ℚ
  fpr : ℚ
  tpr : ℚ
deriving DecidableEq

/-- sklearn `roc_curve(y, scores)` over exact rationals: the kept
cumulative counts normalized by the total negative and positive counts,
with the artificial (0, 0) point prepended.  (With a single outcome
class sklearn emits NaN rates; rational division by zero yields 0
instead, and the theorems about curve values assume both classes are
present.) -/
def rocPoints (pairs : List (ℚ × Bool)) : List RocPt :=
  let P := (pairs.filter (fun p => p.2)).length
  let N := (pairs.filter (fun p => !p.2)).length
  ⟨none, 0, 0⟩ ::
    (rocRaw pairs).map (fun q => ⟨some q.1, (q.2.1 : ℚ) / (N : ℚ), (q.2.2 : ℚ) / (P : ℚ)⟩)

/-- Youden's J at a curve point (`tpr - fpr`, the quantity the
`youden` branch maximizes). -/
def youdenJ (p : RocPt) : ℚ := p.tpr - p.fpr

/-- The constraint mask of `optimize_cutoff`: `tpr >= min_sensitivity`
and `1 - fpr >= min_specificity`, each applied only when supplied. -/
def validPt (min_sensitivity min_specificity : Option ℚ) (p : RocPt) : Bool :=
  (match min_sensitivity with
   | some s => decide (s ≤ p.tpr)
   | none => true)
  && (match min_specificity with
      | some s => decide (s ≤ 1 - p.fpr)
      | none => true)

/-- First element of the list that satisfies `valid` and maximizes `f`
among the satisfying elements.  This is `np.argmax` over the array in
which the entries failing `valid` are replaced by `-inf`: `np.argmax`
returns the first maximizing index, and every masked entry is strictly
below every unmasked one. -/
def firstMaxValidBy {α : Type} (valid : α → Bool) (f : α → ℚ) : List α → Option α
  | [] => none
  | x :: xs =>
    match firstMaxValidBy valid f xs with
    | none => if valid x then some x else none
    | some y => if valid x then (if f x < f y then some y else some x) else some y

/-- The curve point selected by the `youden` branch of
`optimize_cutoff`: the unconstrained first Youden maximizer, replaced by
the constrained one exactly when constraints were supplied and some
point satisfies them (`if valid_mask.sum() > 0`). -/
def chooseRocPt (min_sensitivity min_specificity : Option ℚ) (pts : List RocPt) :
    Option RocPt :=
  let base := firstMaxValidBy (fun _ => true) youdenJ pts
  if min_sensitivity = none ∧ min_specificity = none then base
  else
    match firstMaxValidBy (validPt min_sensitivity min_specificity) youdenJ pts with
    | some p => some p
    | none => base

/-- `_map_threshold_to_biomarker_value`: the observed biomarker value
whose fitted probability is closest to the selected probability
threshold; `np.argmin` keeps the first index on ties, i.e. the first
maximizer of the negated distance.  At the artificial initial point
(`thr = none`, sklearn threshold infinity) every distance is infinite
and `np.argmin` returns index 0, the first observed value. -/
def mapThreshold (xs probs : List ℚ) (t : Option ℚ) : ℚ :=
  match t with
  | some tv =>
    match firstMaxValidBy (fun _ => true) (fun q => -|q.1 - tv|) (probs.zip xs) with
    | some q => q.2
    | none => 0
  | none => xs.headI

/-- The errors `optimize_cutoff` can raise: the insufficient-data
`ValueError` and the unsupported-method `ValueError`. -/
inductive CutoffError where
  | insufficientData (biomarker : String)
  | unsupportedMethod (method : String)
deriving DecidableEq

/-- The per-biomarker result dictionary of `optimize_cutoff`. -/
structure CutoffResult where
  biomarker : String
  cutoff : ℚ
  sensitivity : ℚ
  specificity : ℚ
  youden_index : ℚ
  response_rate_above : ℚ
  response_rate_below : ℚ
  n_above : ℕ
  n_below : ℕ
deriving DecidableEq

/-- The (fitted probability, is-responder) pairs `roc_curve` receives:
the oracle's probabilities zipped with the outcome labels of the
complete pairs (a label is positive when the 0/1 outcome equals 1). -/
def pairsOf (data : Dataset) (b : String) (fit : List (ℚ × ℚ) → List ℚ) :
    List (ℚ × Bool) :=
  (fit (completePairs data b)).zip
    ((completePairs data b).map (fun q => decide (q.2 = 1)))

/-- The result record built from the selected curve point: cutoff from
the nearest-probability lookup, operating characteristics from the
point, and the descriptive response-rate split around the cutoff. -/
def buildResult (data : Dataset) (b : String) (fit : List (ℚ × ℚ) → List ℚ)
    (p : RocPt) : CutoffResult :=
  let valid := completePairs data b
  let cutoff := mapThreshold (valid.map (fun q => q.1)) (fit valid) p.thr
  let above := valid.filter (fun q => decide (cutoff ≤ q.1))
  let below := valid.filter (fun q => decide (q.1 < cutoff))
  ⟨b, cutoff, p.tpr, 1 - p.fpr, youdenJ p,
   if 0 < above.length then qmean (above.map (fun q => q.2)) else 0,
   if 0 < below.length then qmean (below.map (fun q => q.2)) else 0,
   above.length, below.length⟩

/-- `CutoffOptimizer.optimize_cutoff`.  The insufficient-data check
precedes everything; the method check guards the `youden` branch.  The
inner `none` arm is unreachable because `rocPoints` always starts with
the prepended initial point, so `chooseRocPt` always finds a point. -/
def optimizeCutoff (data : Dataset) (biomarker : String) (method : String)
    (min_sensitivity min_specificity : Option ℚ) (fit : List (ℚ × ℚ) → List ℚ) :
    Except CutoffError CutoffResult :=
  if (completePairs data biomarker).length < 20 then
    .error (.insufficientData biomarker)
  else if method = "youden" then
    match chooseRocPt min_sensitivity min_specificity
        (rocPoints (pairsOf data biomarker fit)) with
    | some p => .ok (buildResult data biomarker fit p)
    | none => .error (.unsupportedMethod method)
  else .error (.unsupportedMethod method)

/-- `CutoffOptimizer.optimize_multiple_cutoffs`: apply the single
optimizer per biomarker with no constraints, absorb every error
(`except Exception: continue`), and collect the successes in order. -/
def optimizeMultipleCutoffs (data : Dataset) (biomarker_list : List String)
    (method : String) (fit : List (ℚ × ℚ) → List ℚ) : List CutoffResult :=
  biomarker_list.filterMap
    (fun b => (optimizeCutoff data b method none none fit).toOption)

/-! ### Biomarker analysis (`biomarker_analysis.py`) -/

/-- One row of the ranked biomarker table.  The source also carries the
odds ratio, its confidence bounds and the coefficient; they come
straight from the fit oracle and no verified property reads them, so
only the columns the pipeline itself consumes (`biomarker`, `p_value`,
`AUC`) are modelled. -/
structure BioResult where
  biomarker : String
  p_value : ℚ
  AUC : ℚ
deriving DecidableEq

/-- `BiomarkerAnalyzer._analyze_single_biomarker`: `none` models the
`return None` on fewer than 20 complete pairs (no exception); past the
guard the fit oracle supplies the p-value and AUC of the logistic
fit. -/
def analyzeSingleBiomarker (fitA : List (ℚ × ℚ) → ℚ × ℚ) (data : Dataset)
    (b : String) : Option BioResult :=
  if (completePairs data b).length < 20 then none
  else some ⟨b, (fitA (completePairs data b)).1, (fitA (completePairs data b)).2⟩

/-- The sort key of `sort_values(["p_value", "AUC"],
ascending=[True, False])`: p-value ascending, AUC descending. -/
def brLE (r1 r2 : BioResult) : Bool :=
  decide (r1.p_value < r2.p_value)
    || (decide (r1.p_value = r2.p_value) && decide (r2.AUC ≤ r1.AUC))

/-- Insertion step of the sort. -/
def insertLe {α : Type} (le : α → α → Bool) (x : α) : List α → List α
  | [] => [x]
  | y :: ys => if le x y then x :: y :: ys else y :: insertLe le x ys

/-- Insertion sort (a deterministic representative of the pandas sort;
the verified count property does not depend on the order). -/
def sortLe {α : Type} (le : α → α → Bool) (l : List α) : List α :=
  l.foldr (insertLe le) []

/-- `BiomarkerAnalyzer.analyze_biomarkers`: analyze each listed
biomarker (skipping failures), sort by (p-value asc, AUC desc), filter
to `AUC >= min_auc`, return the first `top_n`. -/
def analyzeBiomarkers (fitA : List (ℚ × ℚ) → ℚ × ℚ) (data : Dataset)
    (biomarker_list : List String) (min_auc : ℚ) (top_n : ℕ) : List BioResult :=
  let results := biomarker_list.filterMap (analyzeSingleBiomarker fitA data)
  let sorted := sortLe brLE results
  (sorted.filter (fun r => decide (min_auc ≤ r.AUC))).take top_n

/-- A filter with a stronger predicate keeps at most as many
elements. -/
lemma length_filter_mono {α : Type} (p q : α → Bool)
    (h : ∀ x, p x = true → q x = true) (l : List α) :
    (l.filter p).length ≤ (l.filter q).length := by
  induction l with
  | nil => exact Nat.le_refl 0
  | cons x xs ih =>
    rw [List.filter_cons, List.filter_cons]
    cases hpx : p x with
    | true =>
      rw [h x hpx]
      simpa using ih
    | false =>
      cases hqx : q x with
      | true =>
        simp only [if_pos rfl, if_neg Bool.false_ne_true, List.length_cons]
        exact Nat.le_trans ih (Nat.le_succ _)
      | false => simpa using ih


/-- C7: raising `min_auc` never increases the number of biomarkers
returned by the batch Signal Estimator: for thresholds `a ≤ b` the
result of `analyze_biomarkers` with `min_auc = b` is at most as long as
with `min_auc = a`, for every dataset, fit oracle, biomarker list and
`top_n`. -/
theorem claim_C7_min_auc_monotone (fitA : List (ℚ × ℚ) → ℚ × ℚ) (data : Dataset)
    (biomarker_list : List String) (top_n : ℕ) (a b : ℚ) (hab : a ≤ b) :
    (analyzeBiomarkers fitA data biomarker_list b top_n).length
      ≤ (analyzeBiomarkers fitA data biomarker_list a top_n).length := by
  unfold analyzeBiomarkers
  dsimp only
  rw [List.length_take, List.length_take]
  have hf := length_filter_mono (fun r => decide (b ≤ r.AUC)) (fun r => decide (a ≤ r.AUC))
    (fun x hx => by
      rw [decide_eq_true_eq] at hx
      rw [decide_eq_true_eq]
      exact le_trans hab hx)
    (sortLe brLE (biomarker_list.filterMap (analyzeSingleBiomarker fitA data)))
  omega

/-- Witness for C7 at a concrete pair of thresholds. -/
theorem claim_C7_witness :
    (0 : ℚ) ≤ 1/2
    ∧ (analyzeBiomarkers (fun _ => (0, 0)) oneRowData ["x"] (1/2) 5).length
        ≤ (analyzeBiomarkers (fun _ => (0, 0)) oneRowData ["x"] 0 5).length :=
  ⟨by norm_num,
   claim_C7_min_auc_monotone (fun _ => (0, 0)) oneRowData ["x"] 5 0 (1/2) (by norm_num)⟩

/-- Elements of an insertion come from the inserted element or the
list. -/
lemma mem_insertLe {α : Type} (le : α → α → Bool) (y x : α) (l : List α)
    (h : x ∈ insertLe le y l) : x = y ∨ x ∈ l := by
  induction l with
  | nil =>
    unfold insertLe at h
    exact Or.inl (List.mem_singleton.mp h)
  | cons z zs ih =>
    unfold insertLe at h
    split at h
    · rcases List.mem_cons.mp h with h1 | h1
      · exact Or.inl h1
      · exact Or.inr h1
    · rcases List.mem_cons.mp h with h1 | h1
      · exact Or.inr (h1 ▸ List.mem_cons_self z zs)
      · rcases ih h1 with h2 | h2
        · exact Or.inl h2
        · exact Or.inr (List.mem_cons_of_mem z h2)

/-- The sort does not invent elements. -/
lemma mem_sortLe {α : Type} (le : α → α → Bool) (l : List α) (x : α)
    (h : x ∈ sortLe le l) : x ∈ l := by
  induction l with
  | nil =>
    simp [sortLe] at h
  | cons z zs ih =>
    rcases mem_insertLe le z x (sortLe le zs) h with h1 | h1
    · exact h1 ▸ List.mem_cons_self z zs
    · exact List.mem_cons_of_mem z (ih h1)

/-- A single-biomarker analysis labels its result with the analyzed
biomarker. -/
lemma analyzeSingleBiomarker_name {fitA : List (ℚ × ℚ) → ℚ × ℚ} {data : Dataset}
    {b : String} {res : BioResult} (h : analyzeSingleBiomarker fitA data b = some res) :
    res.biomarker = b := by
  unfold analyzeSingleBiomarker at h
  split at h
  · exact absurd h (by simp)
  · obtain rfl := Option.some.inj h
    rfl

/-- C8: a biomarker with fewer than 20 complete (value, outcome) pairs
is excluded from the batch Signal Estimator results without any
exception, `optimize_cutoff` raises the insufficient-data error for it,
and the batch optimizer absorbs that error, skipping the biomarker and
continuing with the rest. -/
theorem claim_C8_insufficient_data (fitA : List (ℚ × ℚ) → ℚ × ℚ)
    (fitC : List (ℚ × ℚ) → List ℚ) (data : Dataset) (b : String)
    (rest biomarker_list : List String) (min_auc : ℚ) (top_n : ℕ) (method : String)
    (min_sensitivity min_specificity : Option ℚ)
    (h : (completePairs data b).length < 20) :
    (∀ res ∈ analyzeBiomarkers fitA data biomarker_list min_auc top_n,
        res.biomarker ≠ b)
    ∧ optimizeCutoff data b method min_sensitivity min_specificity fitC
        = .error (.insufficientData b)
    ∧ optimizeMultipleCutoffs data (b :: rest) method fitC
        = optimizeMultipleCutoffs data rest method fitC := by
  refine ⟨?_, ?_, ?_⟩
  · intro res hres
    unfold analyzeBiomarkers at hres
    dsimp only at hres
    have hsrt := List.mem_of_mem_filter (List.mem_of_mem_take hres)
    have hmem := mem_sortLe brLE _ res hsrt
    obtain ⟨b', hb', hsome⟩ := List.mem_filterMap.mp hmem
    have hname := analyzeSingleBiomarker_name hsome
    intro hcontra
    rw [hname] at hcontra
    subst hcontra
    unfold analyzeSingleBiomarker at hsome
    rw [if_pos h] at hsome
    exact Option.noConfusion hsome
  · unfold optimizeCutoff
    rw [if_pos h]
  · unfold optimizeMultipleCutoffs
    rw [List.filterMap_cons]
    rw [show optimizeCutoff data b method none none fitC
        = .error (.insufficientData b) from by unfold optimizeCutoff; rw [if_pos h]]
    rfl

/-- Witness for C8 at a concrete under-sized biomarker. -/
theorem claim_C8_witness :
    (completePairs oneRowData "x").length < 20
    ∧ ((∀ res ∈ analyzeBiomarkers (fun _ => (0, 0)) oneRowData ["x"] (1/2) 5,
          res.biomarker ≠ "x")
       ∧ optimizeCutoff oneRowData "x" "youden" none none (fun v => v.map (fun q => q.1))
           = .error (.insufficientData "x")
       ∧ optimizeMultipleCutoffs oneRowData ["x", "y"] "youden"
             (fun v => v.map (fun q => q.1))
           = optimizeMultipleCutoffs oneRowData ["y"] "youden"
             (fun v => v.map (fun q => q.1))) := by
  have h : (completePairs oneRowData "x").length < 20 := by decide
  exact ⟨h, claim_C8_insufficient_data (fun _ => (0, 0))
    (fun v => v.map (fun q => q.1)) oneRowData "x" ["y"] ["x"] (1/2) 5 "youden"
    none none h⟩

/-! ### Properties of the masked first-argmax scan (C5, C6) -/

/-- A selected element belongs to the list and satisfies the mask. -/
lemma firstMaxValidBy_mem_valid {α : Type} (valid : α → Bool) (f : α → ℚ)
    (l : List α) (p : α) (h : firstMaxValidBy valid f l = some p) :
    p ∈ l ∧ valid p = true := by
  induction l generalizing p with
  | nil => simp [firstMaxValidBy] at h
  | cons x xs ih =>
    unfold firstMaxValidBy at h
    cases hrec : firstMaxValidBy valid f xs with
    | none =>
      rw [hrec] at h
      dsimp only at h
      split at h
      · obtain rfl := Option.some.inj h
        exact ⟨List.mem_cons_self x xs, by assumption⟩
      · exact Option.noConfusion h
    | some y =>
      rw [hrec] at h
      dsimp only at h
      obtain ⟨hy_mem, hy_valid⟩ := ih y hrec
      split at h
      · split at h
        · obtain rfl := Option.some.inj h
          exact ⟨List.mem_cons_of_mem x hy_mem, hy_valid⟩
        · obtain rfl := Option.some.inj h
          exact ⟨List.mem_cons_self x xs, by assumption⟩
      · obtain rfl := Option.some.inj h
        exact ⟨List.mem_cons_of_mem x hy_mem, hy_valid⟩

/-- When the scan returns nothing, no element satisfies the mask. -/
lemma firstMaxValidBy_eq_none {α : Type} (valid : α → Bool) (f : α → ℚ)
    (l : List α) (h : firstMaxValidBy valid f l = none) :
    ∀ x ∈ l, valid x = false := by
  induction l with
  | nil =>
    intro x hx
    cases hx
  | cons x xs ih =>
    intro z hz
    unfold firstMaxValidBy at h
    cases hrec : firstMaxValidBy valid f xs with
    | none =>
      rw [hrec] at h
      dsimp only at h
      split at h
      · exact Option.noConfusion h
      · rcases List.mem_cons.mp hz with rfl | hz'
        · rename_i hvx
          exact Bool.eq_false_iff.mpr hvx
        · exact ih hrec z hz'
    | some y =>
      rw [hrec] at h
      dsimp only at h
      split at h
      · split at h <;> exact Option.noConfusion h
      · exact Option.noConfusion h

/-- The selected element maximizes `f` over the masked elements. -/
lemma firstMaxValidBy_max {α : Type} (valid : α → Bool) (f : α → ℚ)
    (l : List α) (p : α) (h : firstMaxValidBy valid f l = some p) :
    ∀ q ∈ l, valid q = true → f q ≤ f p := by
  induction l generalizing p with
  | nil => simp [firstMaxValidBy] at h
  | cons x xs ih =>
    intro q hq hvq
    unfold firstMaxValidBy at h
    cases hrec : firstMaxValidBy valid f xs with
    | none =>
      rw [hrec] at h
      dsimp only at h
      split at h
      · obtain rfl := Option.some.inj h
        rcases List.mem_cons.mp hq with rfl | hq'
        · exact le_refl _
        · exact absurd hvq (by rw [firstMaxValidBy_eq_none valid f xs hrec q hq']; simp)
      · exact Option.noConfusion h
    | some y =>
      rw [hrec] at h
      dsimp only at h
      split at h
      · split at h
        · obtain rfl := Option.some.inj h
          rcases List.mem_cons.mp hq with rfl | hq'
          · rename_i hlt
            exact le_of_lt hlt
          · exact ih y hrec q hq' hvq
        · obtain rfl := Option.some.inj h
          rename_i hnlt
          rcases List.mem_cons.mp hq with rfl | hq'
          · exact le_refl _
          · exact le_trans (ih y hrec q hq' hvq) (le_of_not_lt hnlt)
      · obtain rfl := Option.some.inj h
        rcases List.mem_cons.mp hq with rfl | hq'
        · rename_i hvx
          exact absurd hvq hvx
        · exact ih y hrec q hq' hvq

/-- The selected element is the first masked maximizer: everything
before it in scan order is either masked out or strictly below it. -/
lemma firstMaxValidBy_first {α : Type} (valid : α → Bool) (f : α → ℚ)
    (l : List α) (p : α) (h : firstMaxValidBy valid f l = some p) :
    ∃ l1 l2, l = l1 ++ p :: l2 ∧ ∀ q ∈ l1, valid q = true → f q < f p := by
  induction l generalizing p with
  | nil => simp [firstMaxValidBy] at h
  | cons x xs ih =>
    unfold firstMaxValidBy at h
    cases hrec : firstMaxValidBy valid f xs with
    | none =>
      rw [hrec] at h
      dsimp only at h
      split at h
      · obtain rfl := Option.some.inj h
        exact ⟨[], xs, rfl, fun q hq => absurd hq (List.not_mem_nil q)⟩
      · exact Option.noConfusion h
    | some y =>
      rw [hrec] at h
      dsimp only at h
      by_cases hvx : valid x = true
      · rw [if_pos hvx] at h
        by_cases hlt : f x < f y
        · rw [if_pos hlt] at h
          obtain rfl := Option.some.inj h
          obtain ⟨m1, m2, heq, hall⟩ := ih y hrec
          refine ⟨x :: m1, m2, by rw [heq, List.cons_append], ?_⟩
          intro q hq hvq
          rcases List.mem_cons.mp hq with rfl | hq'
          · exact hlt
          · exact hall q hq' hvq
        · rw [if_neg hlt] at h
          obtain rfl := Option.some.inj h
          exact ⟨[], xs, rfl, fun q hq => absurd hq (List.not_mem_nil q)⟩
      · rw [if_neg hvx] at h
        obtain rfl := Option.some.inj h
        obtain ⟨m1, m2, heq, hall⟩ := ih y hrec
        refine ⟨x :: m1, m2, by rw [heq, List.cons_append], ?_⟩
        intro q hq hvq
        rcases List.mem_cons.mp hq with rfl | hq'
        · exact absurd hvq hvx
        · exact hall q hq' hvq

/-- Without constraints the selected point is the first unconstrained
Youden maximizer. -/
lemma chooseRocPt_none_none (pts : List RocPt) :
    chooseRocPt none none pts = firstMaxValidBy (fun _ => true) youdenJ pts := by
  unfold chooseRocPt
  rw [if_pos ⟨rfl, rfl⟩]

/-- When no curve point satisfies the constraints, the selection falls
back to the unconstrained scan (`if valid_mask.sum() > 0` fails). -/
lemma chooseRocPt_eq_base_of_no_valid (ms msp : Option ℚ) (pts : List RocPt)
    (h : ∀ q ∈ pts, validPt ms msp q = false) :
    chooseRocPt ms msp pts = firstMaxValidBy (fun _ => true) youdenJ pts := by
  unfold chooseRocPt
  dsimp only
  split
  · rfl
  · cases hc : firstMaxValidBy (validPt ms msp) youdenJ pts with
    | none => rfl
    | some q =>
      obtain ⟨hq_mem, hq_valid⟩ := firstMaxValidBy_mem_valid _ _ _ _ hc
      rw [h q hq_mem] at hq_valid
      exact Bool.noConfusion hq_valid

/-- C5 counterexample and witness data: twenty patients; the fitted
scores (the biomarker values themselves under the identity oracle)
separate five responders high, ten non-responders in the middle, five
responders low. -/
def sepData : Dataset :=
  ⟨["x"],
   List.replicate 5 ⟨some 1, [("x", 9)]⟩
     ++ List.replicate 5 ⟨some 1, [("x", 1)]⟩
     ++ List.replicate 10 ⟨some 0, [("x", 5)]⟩⟩

/-- Identity fit oracle: the fitted score of a patient is the biomarker
value itself. -/
def fitFst : List (ℚ × ℚ) → List ℚ := fun v => v.map (fun q => q.1)

/-- The evaluated ROC curve of `sepData` under the identity oracle. -/
lemma sepData_roc : rocPoints (pairsOf sepData "x" fitFst)
    = [⟨none, 0, 0⟩, ⟨some 9, 0, 1/2⟩, ⟨some 5, 1, 1/2⟩, ⟨some 1, 1, 1⟩] := by
  have hraw : rocRaw (pairsOf sepData "x" fitFst)
      = [(9, 0, 5), (5, 10, 5), (1, 10, 10)] := rfl
  have hP : ((pairsOf sepData "x" fitFst).filter (fun p => p.2)).length = 10 := rfl
  have hN : ((pairsOf sepData "x" fitFst).filter (fun p => !p.2)).length = 10 := rfl
  unfold rocPoints
  rw [hraw, hP, hN]
  norm_num

/-- C5 counterexample: under a sensitivity constraint the reported
`youden_index` (0) is strictly below the Youden value of another
evaluated threshold (1/2), so the claim quantified over every produced
Cutoff Result fails; the constrained behaviour is the one C6
describes. -/
theorem claim_C5_counterexample :
    (optimizeCutoff sepData "x" "youden" (some (4/5)) none fitFst).toOption.map
        CutoffResult.youden_index = some 0
    ∧ ((rocPoints (pairsOf sepData "x" fitFst)).any
        (fun p => decide ((0 : ℚ) < youdenJ p))) = true := by
  have hch : chooseRocPt (some (4/5)) none (rocPoints (pairsOf sepData "x" fitFst))
      = some ⟨some 1, 1, 1⟩ := by
    rw [sepData_roc]
    norm_num [chooseRocPt, firstMaxValidBy, validPt, youdenJ, Option.some_ne_none]
  constructor
  · have hopt : optimizeCutoff sepData "x" "youden" (some (4/5)) none fitFst
        = .ok (buildResult sepData "x" fitFst ⟨some 1, 1, 1⟩) := by
      unfold optimizeCutoff
      rw [if_neg (by decide), if_pos rfl, hch]
    rw [hopt]
    have hyi : (buildResult sepData "x" fitFst ⟨some 1, 1, 1⟩).youden_index = 0 := by
      show youdenJ ⟨some 1, 1, 1⟩ = 0
      norm_num [youdenJ]
    simp [Except.toOption, hyi]
  · rw [sepData_roc]
    norm_num [youdenJ]

/-- C5 (amended): for every Cutoff Result produced by a call of
`optimize_cutoff` without sensitivity/specificity constraints (with both
outcome classes present, so the rates are well defined),
`youden_index = sensitivity + specificity - 1`, and the selected curve
point attains the maximum of tpr - fpr over the whole evaluated
threshold set, with the tie broken by the first threshold attaining the
maximum in scan order.  (Under supplied constraints the reported
`youden_index` can be strictly below the unconstrained maximum — see
the counterexample — which is the behaviour claim C6 specifies.) -/
theorem claim_C5_youden_optimal (data : Dataset) (b : String)
    (fit : List (ℚ × ℚ) → List ℚ) (r : CutoffResult)
    (h : optimizeCutoff data b "youden" none none fit = .ok r)
    (hP : 0 < ((pairsOf data b fit).filter (fun p => p.2)).length)
    (hN : 0 < ((pairsOf data b fit).filter (fun p => !p.2)).length) :
    r.youden_index = r.sensitivity + r.specificity - 1
    ∧ ∃ p l1 l2, rocPoints (pairsOf data b fit) = l1 ++ p :: l2
        ∧ r.youden_index = youdenJ p
        ∧ r.sensitivity = p.tpr ∧ r.specificity = 1 - p.fpr
        ∧ (∀ q ∈ rocPoints (pairsOf data b fit), youdenJ q ≤ youdenJ p)
        ∧ (∀ q ∈ l1, youdenJ q < youdenJ p) := by
  unfold optimizeCutoff at h
  split at h
  · exact absurd h (by simp)
  · rw [if_pos rfl] at h
    cases hch : chooseRocPt none none (rocPoints (pairsOf data b fit)) with
    | none =>
      rw [hch] at h
      exact absurd h (by simp)
    | some p =>
      rw [hch] at h
      dsimp only at h
      obtain rfl := Except.ok.inj h
      rw [chooseRocPt_none_none] at hch
      have hmax := firstMaxValidBy_max _ _ _ _ hch
      obtain ⟨l1, l2, heq, hfirst⟩ := firstMaxValidBy_first _ _ _ _ hch
      constructor
      · show youdenJ p = p.tpr + (1 - p.fpr) - 1
        unfold youdenJ
        ring
      · refine ⟨p, l1, l2, heq, rfl, rfl, rfl, ?_, ?_⟩
        · intro q hq
          exact hmax q hq rfl
        · intro q hq
          exact hfirst q hq rfl

/-- Witness for C5 (amended) at the concrete separating dataset. -/
theorem claim_C5_witness :
    (optimizeCutoff sepData "x" "youden" none none fitFst
        = .ok (buildResult sepData "x" fitFst ⟨some 9, 0, 1/2⟩)
      ∧ 0 < ((pairsOf sepData "x" fitFst).filter (fun p => p.2)).length
      ∧ 0 < ((pairsOf sepData "x" fitFst).filter (fun p => !p.2)).length)
    ∧ ((buildResult sepData "x" fitFst ⟨some 9, 0, 1/2⟩).youden_index
          = (buildResult sepData "x" fitFst ⟨some 9, 0, 1/2⟩).sensitivity
              + (buildResult sepData "x" fitFst ⟨some 9, 0, 1/2⟩).specificity - 1
       ∧ ∃ p l1 l2, rocPoints (pairsOf sepData "x" fitFst) = l1 ++ p :: l2
           ∧ (buildResult sepData "x" fitFst ⟨some 9, 0, 1/2⟩).youden_index = youdenJ p
           ∧ (buildResult sepData "x" fitFst ⟨some 9, 0, 1/2⟩).sensitivity = p.tpr
           ∧ (buildResult sepData "x" fitFst ⟨some 9, 0, 1/2⟩).specificity = 1 - p.fpr
           ∧ (∀ q ∈ rocPoints (pairsOf sepData "x" fitFst), youdenJ q ≤ youdenJ p)
           ∧ (∀ q ∈ l1, youdenJ q < youdenJ p)) := by
  have hch : chooseRocPt none none (rocPoints (pairsOf sepData "x" fitFst))
      = some ⟨some 9, 0, 1/2⟩ := by
    rw [chooseRocPt_none_none, sepData_roc]
    norm_num [firstMaxValidBy, youdenJ]
  have h : optimizeCutoff sepData "x" "youden" none none fitFst
      = .ok (buildResult sepData "x" fitFst ⟨some 9, 0, 1/2⟩) := by
    unfold optimizeCutoff
    rw [if_neg (by decide), if_pos rfl, hch]
  have hP : 0 < ((pairsOf sepData "x" fitFst).filter (fun p => p.2)).length := by decide
  have hN : 0 < ((pairsOf sepData "x" fitFst).filter (fun p => !p.2)).length := by decide
  exact ⟨⟨h, hP, hN⟩, claim_C5_youden_optimal sepData "x" fitFst _ h hP hN⟩

/-- C6: with constraints supplied, the Youden maximization is restricted
to the evaluated thresholds satisfying every supplied constraint (the
returned operating characteristics are those of a constraint-satisfying
point maximizing tpr - fpr among such points); when no evaluated
threshold satisfies the constraints, the call returns exactly what the
unconstrained call returns. -/
theorem claim_C6_constrained_selection (data : Dataset) (b : String)
    (min_sensitivity min_specificity : Option ℚ) (fit : List (ℚ × ℚ) → List ℚ)
    (r : CutoffResult)
    (hc : ¬(min_sensitivity = none ∧ min_specificity = none))
    (h : optimizeCutoff data b "youden" min_sensitivity min_specificity fit = .ok r)
    (hP : 0 < ((pairsOf data b fit).filter (fun p => p.2)).length)
    (hN : 0 < ((pairsOf data b fit).filter (fun p => !p.2)).length) :
    ((rocPoints (pairsOf data b fit)).any (validPt min_sensitivity min_specificity)
        = true →
      ∃ p, chooseRocPt min_sensitivity min_specificity (rocPoints (pairsOf data b fit))
            = some p
        ∧ validPt min_sensitivity min_specificity p = true
        ∧ r.sensitivity = p.tpr ∧ r.specificity = 1 - p.fpr
        ∧ r.youden_index = youdenJ p
        ∧ ∀ q ∈ rocPoints (pairsOf data b fit),
            validPt min_sensitivity min_specificity q = true → youdenJ q ≤ youdenJ p)
    ∧ ((rocPoints (pairsOf data b fit)).all
          (fun q => !validPt min_sensitivity min_specificity q) = true →
        optimizeCutoff data b "youden" min_sensitivity min_specificity fit
          = optimizeCutoff data b "youden" none none fit) := by
  constructor
  · intro hany
    obtain ⟨q0, hq0, hv0⟩ := List.any_eq_true.mp hany
    unfold optimizeCutoff at h
    split at h
    · exact absurd h (by simp)
    · rw [if_pos rfl] at h
      cases hch : chooseRocPt min_sensitivity min_specificity
          (rocPoints (pairsOf data b fit)) with
      | none =>
        rw [hch] at h
        exact absurd h (by simp)
      | some p =>
        rw [hch] at h
        dsimp only at h
        obtain rfl := Except.ok.inj h
        have hch' := hch
        unfold chooseRocPt at hch'
        dsimp only at hch'
        rw [if_neg hc] at hch'
        cases hfm : firstMaxValidBy (validPt min_sensitivity min_specificity) youdenJ
            (rocPoints (pairsOf data b fit)) with
        | none =>
          exact absurd hv0
            (by rw [firstMaxValidBy_eq_none _ _ _ hfm q0 hq0]; simp)
        | some p' =>
          rw [hfm] at hch'
          dsimp only at hch'
          have hpp : p' = p := Option.some.inj hch'
          rw [hpp] at hfm
          obtain ⟨hmem, hvalid⟩ := firstMaxValidBy_mem_valid _ _ _ _ hfm
          exact ⟨p, rfl, hvalid, rfl, rfl, rfl,
            fun q hq hv => firstMaxValidBy_max _ _ _ _ hfm q hq hv⟩
  · intro hall
    have hinv : ∀ q ∈ rocPoints (pairsOf data b fit),
        validPt min_sensitivity min_specificity q = false := by
      intro q hq
      have h2 := List.all_eq_true.mp hall q hq
      cases hvq : validPt min_sensitivity min_specificity q with
      | false => rfl
      | true =>
        rw [hvq] at h2
        simp at h2
    have hbase : chooseRocPt min_sensitivity min_specificity
        (rocPoints (pairsOf data b fit))
        = chooseRocPt none none (rocPoints (pairsOf data b fit)) := by
      rw [chooseRocPt_eq_base_of_no_valid _ _ _ hinv, chooseRocPt_none_none]
    unfold optimizeCutoff
    rw [hbase]

/-- Witness for C6 at the concrete separating dataset with a
sensitivity floor of 4/5 (some evaluated threshold satisfies it). -/
theorem claim_C6_witness :
    (¬((some (4/5) : Option ℚ) = none ∧ (none : Option ℚ) = none)
      ∧ optimizeCutoff sepData "x" "youden" (some (4/5)) none fitFst
          = .ok (buildResult sepData "x" fitFst ⟨some 1, 1, 1⟩)
      ∧ 0 < ((pairsOf sepData "x" fitFst).filter (fun p => p.2)).length
      ∧ 0 < ((pairsOf sepData "x" fitFst).filter (fun p => !p.2)).length)
    ∧ (((rocPoints (pairsOf sepData "x" fitFst)).any (validPt (some (4/5)) none)
          = true →
        ∃ p, chooseRocPt (some (4/5)) none (rocPoints (pairsOf sepData "x" fitFst))
              = some p
          ∧ validPt (some (4/5)) none p = true
          ∧ (buildResult sepData "x" fitFst ⟨some 1, 1, 1⟩).sensitivity = p.tpr
          ∧ (buildResult sepData "x" fitFst ⟨some 1, 1, 1⟩).specificity = 1 - p.fpr
          ∧ (buildResult sepData "x" fitFst ⟨some 1, 1, 1⟩).youden_index = youdenJ p
          ∧ ∀ q ∈ rocPoints (pairsOf sepData "x" fitFst),
              validPt (some (4/5)) none q = true → youdenJ q ≤ youdenJ p)
       ∧ ((rocPoints (pairsOf sepData "x" fitFst)).all
             (fun q => !validPt (some (4/5)) none q) = true →
           optimizeCutoff sepData "x" "youden" (some (4/5)) none fitFst
             = optimizeCutoff sepData "x" "youden" none none fitFst)) := by
  have hc : ¬((some (4/5) : Option ℚ) = none ∧ (none : Option ℚ) = none) := by simp
  have hch : chooseRocPt (some (4/5)) none (rocPoints (pairsOf sepData "x" fitFst))
      = some ⟨some 1, 1, 1⟩ := by
    rw [sepData_roc]
    norm_num [chooseRocPt, firstMaxValidBy, validPt, youdenJ, Option.some_ne_none]
  have h : optimizeCutoff sepData "x" "youden" (some (4/5)) none fitFst
      = .ok (buildResult sepData "x" fitFst ⟨some 1, 1, 1⟩) := by
    unfold optimizeCutoff
    rw [if_neg (by decide), if_pos rfl, hch]
  have hP : 0 < ((pairsOf sepData "x" fitFst).filter (fun p => p.2)).length := by decide
  have hN : 0 < ((pairsOf sepData "x" fitFst).filter (fun p => !p.2)).length := by decide
  exact ⟨⟨hc, h, hP, hN⟩,
    claim_C6_constrained_selection sepData "x" (some (4/5)) none fitFst _ hc h hP hN⟩

end Trialix
